import Mathlib

/-!
Verification of the torrent-creation task manager
(`torrentcreationmanager.cpp`, manager variant with id-lookup callback
routing) and of the parameter-building part of
`MetafileController::createAction` (`metafilecontroller.cpp`).

The embedding is shallow: the mutable C++ objects become immutable Lean
records, a mutating member function becomes a function from the old record
to the new one, and worker signal deliveries become explicit events applied
with `step`.  File reads performed by `content()` are modelled by an
explicit file-system valuation `FileSystem`.
-/

namespace QBT

/-- Torrent format selector, as in the libtorrent-2 build configuration of
the sources (`BitTorrent::TorrentFormat`). -/
inductive TorrentFormat where
  | V1
  | V2
  | Hybrid
  deriving DecidableEq

/-- Content of a `QByteArray`, as a list of byte values. -/
abbrev Bytes := List Nat

/-- QString::isEmpty. -/
def qStrIsEmpty (s : String) : Bool := s == ""

/-- Creation parameters handed to the torrent creator
(`BitTorrent::TorrentCreatorParams`), with the fields read and written by
the sources under study. -/
structure TorrentCreatorParams where
  isPrivate : Bool
  torrentFormat : TorrentFormat
  pieceSize : Int
  inputPath : String
  savePath : String
  comment : String
  source : String
  trackers : List String
  urlSeeds : List String
  deriving DecidableEq

/-- Result reported by a successful worker
(`BitTorrent::TorrentCreatorResult`): inline content bytes, the path of a
written file, and the actually used piece size. -/
structure TorrentCreatorResult where
  content : Bytes
  path : String
  pieceSize : Int
  deriving DecidableEq

/-- State of `TorrentCreationTask` (manager variant of
`torrentcreationmanager.cpp`): the id, the stored creation parameters and
the lifecycle fields. -/
structure TorrentCreationTask where
  m_id : String
  m_params : TorrentCreatorParams
  m_started : Bool
  m_done : Bool
  m_progress : Int
  m_errorMsg : String
  m_result : TorrentCreatorResult
  deriving DecidableEq

namespace TorrentCreationTask

/-- Modelled from the spec: the in-class field initializers of
`TorrentCreationTask` live in the header `torrentcreationmanager.h`, which
is not among the sources; per the spec a freshly created task is Pending
(`started=false, done=false`) with zero progress, no error message and an
empty result (no inline content, no path).  The constructor body in the
sources stores the id and the parameters and nothing else. -/
def init (id : String) (params : TorrentCreatorParams) : TorrentCreationTask :=
  { m_id := id
    m_params := params
    m_started := false
    m_done := false
    m_progress := 0
    m_errorMsg := ""
    m_result := { content := [], path := "", pieceSize := 0 } }

/-- `TorrentCreationTask::handleProgress`. -/
def handleProgress (t : TorrentCreationTask) (progress : Int) : TorrentCreationTask :=
  { t with m_started := true, m_progress := progress }

/-- `TorrentCreationTask::handleFailure`. -/
def handleFailure (t : TorrentCreationTask) (msg : String) : TorrentCreationTask :=
  { t with m_started := true, m_done := true, m_errorMsg := msg }

/-- `TorrentCreationTask::handleSuccess`: also back-fills
`m_params.pieceSize` with the actual piece size of the result. -/
def handleSuccess (t : TorrentCreationTask) (result : TorrentCreatorResult) : TorrentCreationTask :=
  { t with m_started := true, m_done := true, m_result := result
           m_params := { t.m_params with pieceSize := result.pieceSize } }

/-- `TorrentCreationTask::isDoneWithSuccess`. -/
def isDoneWithSuccess (t : TorrentCreationTask) : Bool :=
  t.m_done && (!t.m_result.content.isEmpty || !qStrIsEmpty t.m_result.path)

/-- `TorrentCreationTask::isDoneWithError`. -/
def isDoneWithError (t : TorrentCreationTask) : Bool :=
  t.m_done && !qStrIsEmpty t.m_errorMsg

/-- `TorrentCreationTask::isRunning`. -/
def isRunning (t : TorrentCreationTask) : Bool :=
  t.m_started && !t.m_done

/-- `TorrentCreationTask::id`. -/
def id (t : TorrentCreationTask) : String := t.m_id

/-- `TorrentCreationTask::progress`. -/
def progress (t : TorrentCreationTask) : Int := t.m_progress

/-- `TorrentCreationTask::errorMsg`. -/
def errorMsg (t : TorrentCreationTask) : String := t.m_errorMsg

/-- `TorrentCreationTask::params`. -/
def params (t : TorrentCreationTask) : TorrentCreatorParams := t.m_params

end TorrentCreationTask

/-- Model of the file system seen by `TorrentCreationTask::content`:
reading the file at a path yields its bytes, or `none` when `QFile::open`
or the read fails. -/
abbrev FileSystem := String → Option Bytes

/-- `TorrentCreationTask::content`: empty unless done-with-success;
otherwise the inline result bytes when non-empty, else the bytes read from
the result path, empty on read failure. -/
def TorrentCreationTask.content (t : TorrentCreationTask) (fs : FileSystem) : Bytes :=
  if !t.isDoneWithSuccess then []
  else if !t.m_result.content.isEmpty then t.m_result.content
  else
    match fs t.m_result.path with
    | none => []
    | some bs => bs

/-- One event a worker can deliver to a task: an `updateProgress`, a
`creationSuccess` or a `creationFailure` signal. -/
inductive WorkerEvent where
  | progress (value : Int)
  | success (result : TorrentCreatorResult)
  | failure (msg : String)
  deriving DecidableEq

/-- Delivery of one worker event to a task: dispatches to the connected
handler. -/
def TorrentCreationTask.step (t : TorrentCreationTask) (e : WorkerEvent) : TorrentCreationTask :=
  match e with
  | .progress v => t.handleProgress v
  | .success r => t.handleSuccess r
  | .failure m => t.handleFailure m

/-- Delivery of a sequence of worker events, in order. -/
def TorrentCreationTask.run (t : TorrentCreationTask) (es : List WorkerEvent) : TorrentCreationTask :=
  es.foldl TorrentCreationTask.step t

/-- State of `TorrentCreationManager`: its set of live tasks, keyed by id
(the multi-index container of the source, viewed through its by-id index). -/
structure TorrentCreationManager where
  m_tasks : List (String × TorrentCreationTask)
  deriving DecidableEq

namespace TorrentCreationManager

/-- `tasksById().contains(id)`. -/
def containsId (m : TorrentCreationManager) (id : String) : Bool :=
  m.m_tasks.any (fun p => p.1 == id)

/-- `TorrentCreationManager::getTask`: by-id lookup, `none` when the id is
not registered. -/
def getTask (m : TorrentCreationManager) (id : String) : Option TorrentCreationTask :=
  (m.m_tasks.find? (fun p => p.1 == id)).map Prod.snd

/-- `TorrentCreationManager::taskIds`. -/
def taskIds (m : TorrentCreationManager) : List String :=
  m.m_tasks.map Prod.fst

/-- `TorrentCreationManager::deleteTask`: returns whether the id was found,
together with the registry after erasing the found entry (unchanged when
the id is absent). -/
def deleteTask (m : TorrentCreationManager) (id : String) :
    Bool × TorrentCreationManager :=
  match m.m_tasks.find? (fun p => p.1 == id) with
  | none => (false, m)
  | some _ => (true, ⟨m.m_tasks.eraseP (fun p => p.1 == id)⟩)

/-- `TorrentCreationManager::createTask`, id-allocation and registration
part.  The source draws fresh UUID strings until one is not contained in
the registry; the stream of candidate ids drawn by `QUuid::createUuid` is
modelled by the list `cands`, and the result is `none` when the loop has
not terminated within the given candidates.  The chosen id is the first
candidate free in the registry; the new task is registered under it (the
container is keyed by id, so the position of the new entry is immaterial). -/
def createTask (m : TorrentCreationManager) (params : TorrentCreatorParams)
    (cands : List String) : Option (String × TorrentCreationManager) :=
  match cands.find? (fun id => !m.containsId id) with
  | none => none
  | some taskId =>
      some (taskId, ⟨(taskId, TorrentCreationTask.init taskId params) :: m.m_tasks⟩)

/-- Delivery of a `creationSuccess` signal through the `onSuccess` lambda
of `TorrentCreationManager::createTask`: a fresh `getTask` lookup guards
the mutation, so a missing id delivers nothing.  (The `startSeeding` call
acts on the session, outside the registry state modelled here.) -/
def deliverSuccess (m : TorrentCreationManager) (taskId : String)
    (result : TorrentCreatorResult) : TorrentCreationManager :=
  match m.getTask taskId with
  | none => m
  | some _ =>
      ⟨m.m_tasks.map (fun p => if p.1 == taskId then (p.1, p.2.handleSuccess result) else p)⟩

/-- Delivery of a `creationFailure` signal through the `onFailure` lambda
of `TorrentCreationManager::createTask`, with the same lookup guard. -/
def deliverFailure (m : TorrentCreationManager) (taskId : String)
    (msg : String) : TorrentCreationManager :=
  match m.getTask taskId with
  | none => m
  | some _ =>
      ⟨m.m_tasks.map (fun p => if p.1 == taskId then (p.1, p.2.handleFailure msg) else p)⟩

end TorrentCreationManager

/-! Parameter construction of `MetafileController::createAction`
(`metafilecontroller.cpp`), libtorrent-2 build configuration. -/

def KEY_COMMENT : String := "comment"

def KEY_FORMAT : String := "format"

def KEY_INPUT_PATH : String := "inputPath"

def KEY_PIECE_SIZE : String := "pieceSize"

def KEY_PRIVATE : String := "private"

def KEY_SAVE_PATH : String := "savePath"

def KEY_SOURCE : String := "source"

def KEY_TRACKERS : String := "trackers"

def KEY_URL_SEEDS : String := "urlSeeds"

/-- The `TorrentCreatorParams` value built at the start of
`MetafileController::createAction` from the request parameters.  The
request is the `params()` map of the controller (a missing key reads as the
empty string); `parseBool` and `parseInt` are `Utils::String::parseBool`
and `parseInt`, kept abstract since their code is not among the sources.
The `source` field is assigned from `KEY_COMMENT`, exactly as the source
does. -/
def MetafileController.createActionParams (parseBool : String → Option Bool)
    (parseInt : String → Option Int) (req : String → String) : TorrentCreatorParams :=
  { isPrivate := (parseBool (req KEY_PRIVATE)).getD false
    torrentFormat :=
      if (req KEY_FORMAT).toLower = "v1" then .V1
      else if (req KEY_FORMAT).toLower = "v2" then .V2
      else .Hybrid
    pieceSize := (parseInt (req KEY_PIECE_SIZE)).getD 0
    inputPath := req KEY_INPUT_PATH
    savePath := req KEY_SAVE_PATH
    comment := req KEY_COMMENT
    source := req KEY_COMMENT
    trackers := (req KEY_TRACKERS).splitOn "|"
    urlSeeds := (req KEY_URL_SEEDS).splitOn "|" }

/-! Concrete values used by witnesses and counterexamples. -/

/-- Sample creation parameters. -/
def exampleParams : TorrentCreatorParams :=
  { isPrivate := false
    torrentFormat := .Hybrid
    pieceSize := 0
    inputPath := "/data/movie.mkv"
    savePath := ""
    comment := ""
    source := ""
    trackers := []
    urlSeeds := [] }

/-- A task that has received a failure event (terminal state). -/
def exampleFailedTask : TorrentCreationTask :=
  (TorrentCreationTask.init "a" exampleParams).handleFailure "boom"

/-- A freshly created sample task. -/
def exampleTask : TorrentCreationTask :=
  TorrentCreationTask.init "id1" exampleParams

/-- A registry holding one task under id `id1`. -/
def exampleManager : TorrentCreationManager :=
  ⟨[("id1", exampleTask)]⟩

/-- The registry obtained from `exampleManager` by registering a fresh task
under id `fresh`. -/
def exampleManager2 : TorrentCreationManager :=
  ⟨[("fresh", TorrentCreationTask.init "fresh" exampleParams), ("id1", exampleTask)]⟩

open TorrentCreationTask TorrentCreationManager

/-- C9: a freshly constructed task is Pending: `started=false`,
`done=false`, so `isRunning`, `isDoneWithSuccess` and `isDoneWithError`
all report false before any worker event is delivered. -/
theorem freshTask_pending_spec (i : String) (p : TorrentCreatorParams) :
    (TorrentCreationTask.init i p).m_started = false
  ∧ (TorrentCreationTask.init i p).m_done = false
  ∧ (TorrentCreationTask.init i p).isRunning = false
  ∧ (TorrentCreationTask.init i p).isDoneWithSuccess = false
  ∧ (TorrentCreationTask.init i p).isDoneWithError = false := by
  simp [TorrentCreationTask.init, TorrentCreationTask.isRunning,
    TorrentCreationTask.isDoneWithSuccess, TorrentCreationTask.isDoneWithError]

/-- C8: over a task's lifetime the stored params change in exactly one
respect: a success event overwrites `params.pieceSize` with the
worker-reported piece size, and no event (progress, failure, success)
changes any other params field. -/
theorem params_frame_spec (t : TorrentCreationTask) (v : Int) (msg : String)
    (r : TorrentCreatorResult) :
    (t.handleProgress v).params = t.params
  ∧ (t.handleFailure msg).params = t.params
  ∧ (t.handleSuccess r).params.pieceSize = r.pieceSize
  ∧ (t.handleSuccess r).params.isPrivate = t.params.isPrivate
  ∧ (t.handleSuccess r).params.torrentFormat = t.params.torrentFormat
  ∧ (t.handleSuccess r).params.inputPath = t.params.inputPath
  ∧ (t.handleSuccess r).params.savePath = t.params.savePath
  ∧ (t.handleSuccess r).params.comment = t.params.comment
  ∧ (t.handleSuccess r).params.source = t.params.source
  ∧ (t.handleSuccess r).params.trackers = t.params.trackers
  ∧ (t.handleSuccess r).params.urlSeeds = t.params.urlSeeds := by
  simp [TorrentCreationTask.handleProgress, TorrentCreationTask.handleFailure,
    TorrentCreationTask.handleSuccess, TorrentCreationTask.params]

/-- C1 (amended): once a terminal event has made `done=true`, any further
event leaves the task terminal — `done` and `started` stay true, so
`isRunning()` stays false — though the unguarded handlers may still
overwrite `progress`, `errorMsg`, the result and `params.pieceSize`. -/
theorem terminal_flags_preserved (t : TorrentCreationTask) (e : WorkerEvent)
    (h : t.m_done = true) :
    (t.step e).m_done = true ∧ (t.step e).m_started = true
  ∧ (t.step e).isRunning = false := by
  cases e <;>
    simp [TorrentCreationTask.step, TorrentCreationTask.handleProgress,
      TorrentCreationTask.handleSuccess, TorrentCreationTask.handleFailure,
      TorrentCreationTask.isRunning, h]

/-- Witness for C1 (amended) at a concrete terminal task and a concrete
post-terminal progress event. -/
theorem terminal_flags_preserved_witness :
    (exampleFailedTask.step (.progress 50)).m_done = true
  ∧ (exampleFailedTask.step (.progress 50)).m_started = true
  ∧ (exampleFailedTask.step (.progress 50)).isRunning = false :=
  terminal_flags_preserved exampleFailedTask (.progress 50) (by decide)

/-- C1 counterexample: `handleProgress` has no guard on `done`, so a
progress event delivered after a terminal failure event changes the
observable `progress()` of the task. -/
theorem post_terminal_progress_changes_state :
    exampleFailedTask.m_done = true
  ∧ (exampleFailedTask.handleProgress 50).progress ≠ exampleFailedTask.progress := by
  decide

/-- C2: delivering a success or failure callback for an id absent from the
registry is a safe no-op — the lookup guard fails and the registry state is
returned unchanged. -/
theorem deliver_missing_id_noop (m : TorrentCreationManager) (i msg : String)
    (r : TorrentCreatorResult) (h : m.getTask i = none) :
    m.deliverSuccess i r = m ∧ m.deliverFailure i msg = m := by
  constructor <;>
    simp [TorrentCreationManager.deliverSuccess,
      TorrentCreationManager.deliverFailure, h]

/-- Witness for C2 at a concrete registry and an unregistered id. -/
theorem deliver_missing_id_noop_witness :
    exampleManager.deliverSuccess "nope" ⟨[1], "", 16384⟩ = exampleManager
  ∧ exampleManager.deliverFailure "nope" "late" = exampleManager :=
  deliver_missing_id_noop exampleManager "nope" "late" ⟨[1], "", 16384⟩ (by decide)

/-- Unfolds one delivery from a run. -/
theorem run_cons (t : TorrentCreationTask) (e : WorkerEvent) (es : List WorkerEvent) :
    t.run (e :: es) = (t.step e).run es := rfl

/-- Once `done` is set, no later event clears it. -/
theorem run_done_mono (es : List WorkerEvent) (t : TorrentCreationTask)
    (h : t.m_done = true) : (t.run es).m_done = true := by
  induction es generalizing t with
  | nil => exact h
  | cons e es ih =>
    rw [run_cons]
    apply ih
    cases e <;>
      simp [TorrentCreationTask.step, TorrentCreationTask.handleProgress,
        TorrentCreationTask.handleSuccess, TorrentCreationTask.handleFailure, h]

/-- A run that ends not-done never went through a success or failure event,
so the stored result is still the one it started with. -/
theorem run_result_of_not_done (es : List WorkerEvent) (t : TorrentCreationTask)
    (h : (t.run es).m_done = false) : (t.run es).m_result = t.m_result := by
  induction es generalizing t with
  | nil => rfl
  | cons e es ih =>
    rw [run_cons] at h ⊢
    cases e with
    | progress v =>
        rw [ih _ h]
        rfl
    | success r =>
        have hd : ((t.step (.success r)).run es).m_done = true := by
          apply run_done_mono
          simp [TorrentCreationTask.step, TorrentCreationTask.handleSuccess]
        rw [hd] at h
        cases h
    | failure m =>
        have hd : ((t.step (.failure m)).run es).m_done = true := by
          apply run_done_mono
          simp [TorrentCreationTask.step, TorrentCreationTask.handleFailure]
        rw [hd] at h
        cases h

/-- C3 (amended): for a task in a non-terminal state, a success event whose
result has non-empty inline content or a non-empty path makes the task
done-with-success, back-fills `params.pieceSize` with the reported piece
size, and makes `content()` return the inline bytes when non-empty, else
the bytes read from the recorded path. -/
theorem handleSuccess_spec (t : TorrentCreationTask) (r : TorrentCreatorResult)
    (fs : FileSystem) (_hnt : t.m_done = false)
    (hne : r.content ≠ [] ∨ r.path ≠ "") :
    (t.handleSuccess r).isDoneWithSuccess = true
  ∧ (t.handleSuccess r).params.pieceSize = r.pieceSize
  ∧ (r.content ≠ [] → (t.handleSuccess r).content fs = r.content)
  ∧ (∀ bs, r.content = [] → fs r.path = some bs → (t.handleSuccess r).content fs = bs) := by
  have hs : (t.handleSuccess r).isDoneWithSuccess = true := by
    rcases hne with h | h <;>
      simp [TorrentCreationTask.handleSuccess, TorrentCreationTask.isDoneWithSuccess,
        qStrIsEmpty, List.isEmpty_iff, h]
  have hr : (t.handleSuccess r).m_result = r := rfl
  refine ⟨hs, by simp [TorrentCreationTask.handleSuccess, TorrentCreationTask.params], ?_, ?_⟩
  · intro hc
    simp [TorrentCreationTask.content, hs, hr, List.isEmpty_iff, hc]
  · intro bs hc hfs
    simp [TorrentCreationTask.content, hs, hr, List.isEmpty_iff, hc, hfs]

/-- Witness for C3 (amended): a concrete success with inline bytes, and a
concrete success with only a path backed by a concrete file system. -/
theorem handleSuccess_spec_witness :
    ((exampleTask.handleSuccess ⟨[7, 7], "", 262144⟩).isDoneWithSuccess = true
     ∧ (exampleTask.handleSuccess ⟨[7, 7], "", 262144⟩).params.pieceSize = 262144
     ∧ (exampleTask.handleSuccess ⟨[7, 7], "", 262144⟩).content (fun _ => none) = [7, 7])
  ∧ (exampleTask.handleSuccess ⟨[], "/out.torrent", 262144⟩).content
      (fun s => if s == "/out.torrent" then some [9] else none) = [9] := by
  have h1 := handleSuccess_spec exampleTask ⟨[7, 7], "", 262144⟩ (fun _ => none)
    (by decide) (Or.inl (by decide))
  have h2 := handleSuccess_spec exampleTask ⟨[], "/out.torrent", 262144⟩
    (fun s => if s == "/out.torrent" then some [9] else none)
    (by decide) (Or.inr (by decide))
  exact ⟨⟨h1.1, h1.2.1, h1.2.2.1 (by decide)⟩, h2.2.2.2 [9] rfl (by decide)⟩

/-- C3 counterexample: a success event whose result carries neither inline
content nor a path leaves `isDoneWithSuccess()` false, though it was
delivered to a non-terminal task. -/
theorem success_empty_result_not_doneWithSuccess :
    (TorrentCreationTask.init "a" exampleParams).m_done = false
  ∧ ((TorrentCreationTask.init "a" exampleParams).handleSuccess
      ⟨[], "", 262144⟩).isDoneWithSuccess = false := by
  decide

/-- C4 (amended): a task reached by worker events and still non-terminal
that receives a failure event with a non-empty message M reports
`isDoneWithError()=true`, `errorMsg()=M`, and empty `content()`. -/
theorem handleFailure_spec (i : String) (p : TorrentCreatorParams)
    (es : List WorkerEvent) (M : String) (fs : FileSystem)
    (hnd : ((TorrentCreationTask.init i p).run es).m_done = false)
    (hM : M ≠ "") :
    (((TorrentCreationTask.init i p).run es).handleFailure M).isDoneWithError = true
  ∧ (((TorrentCreationTask.init i p).run es).handleFailure M).errorMsg = M
  ∧ (((TorrentCreationTask.init i p).run es).handleFailure M).content fs = [] := by
  have hres : ((TorrentCreationTask.init i p).run es).m_result =
      { content := [], path := "", pieceSize := 0 } :=
    run_result_of_not_done es _ hnd
  refine ⟨?_, rfl, ?_⟩
  · simp [TorrentCreationTask.handleFailure, TorrentCreationTask.isDoneWithError,
      qStrIsEmpty, hM]
  · simp [TorrentCreationTask.content, TorrentCreationTask.isDoneWithSuccess,
      TorrentCreationTask.handleFailure, hres, qStrIsEmpty]

/-- Witness for C4 (amended) at a concrete run and message. -/
theorem handleFailure_spec_witness :
    ((((TorrentCreationTask.init "a" exampleParams).run
        [.progress 10]).handleFailure "oops").isDoneWithError = true)
  ∧ ((((TorrentCreationTask.init "a" exampleParams).run
        [.progress 10]).handleFailure "oops").errorMsg = "oops")
  ∧ ((((TorrentCreationTask.init "a" exampleParams).run
        [.progress 10]).handleFailure "oops").content (fun _ => none) = []) :=
  handleFailure_spec "a" exampleParams [.progress 10] "oops" (fun _ => none)
    (by decide) (by decide)

/-- C4 counterexample: a failure event carrying the empty message leaves
`isDoneWithError()` false, though it was delivered to a non-terminal
task. -/
theorem failure_empty_msg_not_doneWithError :
    (TorrentCreationTask.init "a" exampleParams).m_done = false
  ∧ ((TorrentCreationTask.init "a" exampleParams).handleFailure "").isDoneWithError
      = false := by
  decide

/-- C7: `content()` is empty whenever the task is not done-with-success;
otherwise it is the inline result bytes when non-empty, else the bytes read
from the recorded path, and empty when that read fails. -/
theorem content_spec (t : TorrentCreationTask) (fs : FileSystem) :
    (t.isDoneWithSuccess = false → t.content fs = [])
  ∧ (t.isDoneWithSuccess = true → t.m_result.content ≠ [] →
       t.content fs = t.m_result.content)
  ∧ (∀ bs, t.isDoneWithSuccess = true → t.m_result.content = [] →
       fs t.m_result.path = some bs → t.content fs = bs)
  ∧ (t.isDoneWithSuccess = true → t.m_result.content = [] →
       fs t.m_result.path = none → t.content fs = []) := by
  refine ⟨?_, ?_, ?_, ?_⟩ <;> intros <;>
    simp_all [TorrentCreationTask.content, List.isEmpty_iff]

/-- Witness for C7 covering all four branches at concrete tasks and file
systems. -/
theorem content_spec_witness :
    exampleTask.content (fun _ => none) = []
  ∧ (exampleTask.handleSuccess ⟨[7], "", 1⟩).content (fun _ => none) = [7]
  ∧ (exampleTask.handleSuccess ⟨[], "/x", 1⟩).content
      (fun s => if s == "/x" then some [9] else none) = [9]
  ∧ (exampleTask.handleSuccess ⟨[], "/x", 1⟩).content (fun _ => none) = [] :=
  ⟨(content_spec exampleTask (fun _ => none)).1 (by decide),
   (content_spec _ (fun _ => none)).2.1 (by decide) (by decide),
   (content_spec _ _).2.2.1 [9] (by decide) (by decide) (by decide),
   (content_spec _ (fun _ => none)).2.2.2 (by decide) (by decide) rfl⟩

/-- Erasing the entry found under a key removes that key entirely when the
registry keys are duplicate-free. -/
theorem find?_eraseP_none (l : List (String × TorrentCreationTask)) (i : String)
    (h : (l.map Prod.fst).Nodup) :
    (l.eraseP (fun p => p.1 == i)).find? (fun p => p.1 == i) = none := by
  induction l with
  | nil => rfl
  | cons a l ih =>
    rw [List.map_cons, List.nodup_cons] at h
    by_cases hk : a.1 = i
    · have hpa : (a.1 == i) = true := by simp [hk]
      rw [List.eraseP_cons, hpa, cond_true]
      refine List.find?_eq_none.2 ?_
      intro x hx hpx
      apply h.1
      have hxi : x.1 = i := by simpa using hpx
      rw [hk, ← hxi]
      exact List.mem_map.2 ⟨x, hx, rfl⟩
    · have hpa : (a.1 == i) = false := by simp [hk]
      rw [List.eraseP_cons, hpa, cond_false,
        List.find?_cons_of_neg _ (by simp [hk])]
      exact ih h.2

/-- C5: `deleteTask` on an absent id returns false and leaves the registry
unchanged; on a present id it returns true, after it the same id reports
not-found from `getTask`, and a second `deleteTask` with that id returns
false. -/
theorem deleteTask_spec (m : TorrentCreationManager) (i : String)
    (hnd : (m.m_tasks.map Prod.fst).Nodup) :
    (m.getTask i = none → m.deleteTask i = (false, m))
  ∧ ((m.getTask i).isSome = true →
       (m.deleteTask i).1 = true
     ∧ (m.deleteTask i).2.getTask i = none
     ∧ ((m.deleteTask i).2.deleteTask i).1 = false) := by
  cases hf : m.m_tasks.find? (fun p => p.1 == i) with
  | none =>
    constructor
    · intro _
      simp [TorrentCreationManager.deleteTask, hf]
    · intro hs
      rw [TorrentCreationManager.getTask, hf] at hs
      cases hs
  | some a =>
    constructor
    · intro h
      rw [TorrentCreationManager.getTask, hf] at h
      cases h
    · intro _
      have h1 : m.deleteTask i =
          (true, ⟨m.m_tasks.eraseP (fun p => p.1 == i)⟩) := by
        simp [TorrentCreationManager.deleteTask, hf]
      have h2 : (m.m_tasks.eraseP (fun p => p.1 == i)).find?
          (fun p => p.1 == i) = none :=
        find?_eraseP_none m.m_tasks i hnd
      refine ⟨by rw [h1], ?_, ?_⟩
      · rw [h1]
        simp [TorrentCreationManager.getTask, h2]
      · rw [h1]
        simp [TorrentCreationManager.deleteTask, h2]

/-- Witness for C5 at a concrete registry, one absent and one present id. -/
theorem deleteTask_spec_witness :
    exampleManager.deleteTask "zzz" = (false, exampleManager)
  ∧ (exampleManager.deleteTask "id1").1 = true
  ∧ (exampleManager.deleteTask "id1").2.getTask "id1" = none
  ∧ ((exampleManager.deleteTask "id1").2.deleteTask "id1").1 = false := by
  have h1 := (deleteTask_spec exampleManager "zzz" (by decide)).1 (by decide)
  have h2 := (deleteTask_spec exampleManager "id1" (by decide)).2 (by decide)
  exact ⟨h1, h2.1, h2.2.1, h2.2.2⟩

/-- The by-id containment test agrees with membership among the registered
keys. -/
theorem containsId_false_iff (m : TorrentCreationManager) (i : String) :
    m.containsId i = false ↔ i ∉ m.m_tasks.map Prod.fst := by
  rw [TorrentCreationManager.containsId, ← Bool.not_eq_true, List.any_eq_true]
  simp [List.mem_map]

/-- C6: a `createTask` call that returns picks the first candidate id that
does not collide with a registered id, so the returned id is absent from
the registry at insertion time; the new task is registered under it and the
registered ids stay pairwise distinct. -/
theorem createTask_fresh_spec (m : TorrentCreationManager)
    (p : TorrentCreatorParams) (cands : List String) (i : String)
    (m2 : TorrentCreationManager)
    (h : m.createTask p cands = some (i, m2))
    (hnd : (m.m_tasks.map Prod.fst).Nodup) :
    m.containsId i = false
  ∧ m2.getTask i = some (TorrentCreationTask.init i p)
  ∧ (m2.m_tasks.map Prod.fst).Nodup := by
  rw [TorrentCreationManager.createTask] at h
  cases hf : cands.find? (fun c => !m.containsId c) with
  | none =>
    rw [hf] at h
    cases h
  | some c =>
    rw [hf] at h
    have hci : c = i ∧
        (⟨(c, TorrentCreationTask.init c p) :: m.m_tasks⟩ : TorrentCreationManager)
          = m2 := by
      simpa using h
    obtain ⟨rfl, rfl⟩ := hci
    have hfree : m.containsId c = false := by
      have := List.find?_some hf
      simpa using this
    refine ⟨hfree, ?_, ?_⟩
    · rw [TorrentCreationManager.getTask, List.find?_cons_of_pos _ (by simp)]
      rfl
    · rw [List.map_cons, List.nodup_cons]
      exact ⟨(containsId_false_iff m c).1 hfree, hnd⟩

/-- Witness for C6: the candidate stream first draws the already registered
id, which is rejected, then a fresh one, which is chosen. -/
theorem createTask_fresh_spec_witness :
    exampleManager.containsId "fresh" = false
  ∧ exampleManager2.getTask "fresh"
      = some (TorrentCreationTask.init "fresh" exampleParams)
  ∧ (exampleManager2.m_tasks.map Prod.fst).Nodup :=
  createTask_fresh_spec exampleManager exampleParams ["id1", "fresh"] "fresh"
    exampleManager2 (by decide) (by decide)

/-- C10: the controller builds the created params with the `source` field
taken from the `comment` request parameter, and the value supplied under
the `source` request key never reaches the constructed params. -/
theorem createAction_source_from_comment (pb : String → Option Bool)
    (pint : String → Option Int) (req req2 : String → String)
    (h : ∀ k, k ≠ KEY_SOURCE → req k = req2 k) :
    (MetafileController.createActionParams pb pint req).source = req KEY_COMMENT
  ∧ MetafileController.createActionParams pb pint req
      = MetafileController.createActionParams pb pint req2 := by
  refine ⟨rfl, ?_⟩
  rw [MetafileController.createActionParams, MetafileController.createActionParams,
    h KEY_PRIVATE (by decide), h KEY_FORMAT (by decide),
    h KEY_PIECE_SIZE (by decide), h KEY_INPUT_PATH (by decide),
    h KEY_SAVE_PATH (by decide), h KEY_COMMENT (by decide),
    h KEY_TRACKERS (by decide), h KEY_URL_SEEDS (by decide)]

/-- Witness for C10: two concrete requests that differ only in their
`source` parameter produce the same params, whose `source` field holds the
`comment` value. -/
theorem createAction_source_from_comment_witness :
    (MetafileController.createActionParams (fun _ => none) (fun _ => none)
        (fun k => if k = "source" then "AAA" else "x")).source = "x"
  ∧ MetafileController.createActionParams (fun _ => none) (fun _ => none)
        (fun k => if k = "source" then "AAA" else "x")
      = MetafileController.createActionParams (fun _ => none) (fun _ => none)
        (fun k => if k = "source" then "BBB" else "x") := by
  have h := createAction_source_from_comment (fun _ => none) (fun _ => none)
    (fun k => if k = "source" then "AAA" else "x")
    (fun k => if k = "source" then "BBB" else "x")
    (by
      intro k hk
      rw [KEY_SOURCE] at hk
      simp [hk])
  exact ⟨h.1.trans (by decide), h.2⟩

end QBT
